import Mathlib

/-!
Shallow embedding of `src/rust/src/main.rs` (the `conctest` concurrency
benchmark) and proofs about it.

Embedding conventions:
* `TimeMs = i128` is modelled as `Int`.  Rust `i128` division truncates
  toward zero, so it is embedded as `Int.tdiv`, never as `/` (which is
  Euclidean division on `Int` in Lean).
* Clock reads (`now_ms`, `duration_ms`) return `Duration::as_millis()`
  values, which are non-negative; the nondeterministic readings are passed
  in explicitly as `Nat` oracle arguments.
* `f64` arithmetic (the concurrency profit and the standard deviation) is
  modelled as exact arithmetic over `ℚ` / `ℝ`: the float operations on the
  small integral inputs involved are treated as exact.  The float-to-int
  cast `as TimeMs` on a non-negative quotient is truncation, i.e. the floor;
  `(0.0/0.0) as TimeMs` is `0` in Rust (NaN casts to 0), which coincides
  with the `Nat` convention `x / 0 = 0` used in the embedding.
* `.unwrap()` / `Vec` indexing panics are modelled with `Option` (`none` is
  a panic) where a claim is about the panic, and with `Option.getD` junk
  defaults where the source guards the call so the panic is unreachable;
  theorems carry the corresponding non-emptiness hypotheses.
* Spawned concurrent tasks return timing records; the scheduler is
  deterministic in everything but those records, which are supplied by an
  oracle `env : Nat → Task` giving the record of the i-th spawned task.
-/

namespace Conctest

/-- `type TimeMs = i128`. -/
abbrev TimeMs := Int

/-- `type TimeCompatibleInt = i128`. -/
abbrev TimeCompatibleInt := Int

/-- `struct Task { start: TimeMs, duration: TimeMs }` — one schedule entry. -/
structure Task where
  start : TimeMs
  duration : TimeMs
deriving DecidableEq

/-- `Task::get_start`. -/
def Task.get_start (t : Task) : TimeMs := t.start

/-- `Task::recalc_start_relative` — `self.start -= initial_moment`. -/
def Task.recalc_start_relative (t : Task) (initial_moment : TimeMs) : Task :=
  { t with start := t.start - initial_moment }

/-- `Task::get_finish` — `self.start + self.duration`. -/
def Task.get_finish (t : Task) : TimeMs := t.start + t.duration

/-- `Task::get_duration`. -/
def Task.get_duration (t : Task) : TimeMs := t.duration

/-- `Task::create`. -/
def Task.create (start duration : TimeMs) : Task :=
  { start := start, duration := duration }

/-- `standard_task(n_cycles)` runs the busy-work payload and wraps the two
clock reads into a `Task`.  The clock readings are nondeterministic inputs:
`nowMs` models `now_ms(&watch)` and `elapsedMs` models `duration_ms(&watch)`.
Both Rust functions return `Duration::as_millis()` values, hence `Nat`. -/
def standard_task (n_cycles nowMs elapsedMs : Nat) : Task :=
  Task.create (nowMs : Int) (elapsedMs : Int)

/-- `struct Observation { tasks: Vec<Task>, concurrency_profit: f64 }`.
The `f64` profit is modelled as an exact rational. -/
structure Observation where
  tasks : List Task
  concurrency_profit : ℚ
deriving DecidableEq

/-- `Observation::register_task` — `self.tasks.push(task)`. -/
def Observation.register_task (o : Observation) (task : Task) : Observation :=
  { o with tasks := o.tasks ++ [task] }

/-- `Observation::count_tasks` — `self.tasks.len()`. -/
def Observation.count_tasks (o : Observation) : Nat := o.tasks.length

/-- `Observation::get_earliest_start` —
`self.tasks.iter().map(get_start).min().unwrap()`.  The `.unwrap()` panics on
an empty schedule; the `getD 0` default is junk for that unreachable case and
theorems assume `tasks ≠ []`. -/
def Observation.get_earliest_start (o : Observation) : TimeMs :=
  ((o.tasks.map Task.get_start).min?).getD 0

/-- `Observation::get_latest_finish` —
`self.tasks.iter().map(get_finish).max().unwrap()` (same unwrap convention). -/
def Observation.get_latest_finish (o : Observation) : TimeMs :=
  ((o.tasks.map Task.get_finish).max?).getD 0

/-- `Observation::recalc_tasks_relative_earliest_start` — subtracts the
earliest start from every task's `start`, in place. -/
def Observation.recalc_tasks_relative_earliest_start (o : Observation) : Observation :=
  { o with tasks := o.tasks.map (fun t => t.recalc_start_relative o.get_earliest_start) }

/-- `Observation::get_total_duration` — `latest_finish - earliest_start`. -/
def Observation.get_total_duration (o : Observation) : TimeMs :=
  o.get_latest_finish - o.get_earliest_start

/-- `Observation::sum_duration` — accumulates the task durations. -/
def Observation.sum_duration (o : Observation) : TimeMs :=
  (o.tasks.map Task.get_duration).sum

/-- `Observation::get_mean_task_duration` —
`self.sum_duration() / (self.count_tasks() as TimeCompatibleInt)`.
Rust `i128` division truncates toward zero: `Int.tdiv`.  On an empty
observation the source panics (division by zero); `Int.tdiv _ 0 = 0` is the
unreachable junk value. -/
def Observation.get_mean_task_duration (o : Observation) : TimeMs :=
  Int.tdiv o.sum_duration (o.count_tasks : TimeCompatibleInt)

/-- The `dispersion` accumulator inside `Observation::get_standard_deviation`:
`Σ (mean_task_duration - duration)²` over the tasks. -/
def Observation.dispersion (o : Observation) : TimeMs :=
  (o.tasks.map (fun t =>
    (o.get_mean_task_duration - t.get_duration) *
      (o.get_mean_task_duration - t.get_duration))).sum

/-- `Observation::get_standard_deviation` —
`((dispersion as f64).sqrt() / (count_tasks as f64 - 1.0)) as TimeMs`.
`dispersion` is a sum of squares, hence non-negative.  In exact arithmetic
the truncated non-negative quotient `⌊√dispersion / (n-1)⌋` equals
`Nat.sqrt dispersion / (n - 1)` (proved below as `C6`).  For `n = 1` the
source computes `0.0 / 0.0 = NaN` and `NaN as i128 = 0`, matching the `Nat`
convention `0 / 0 = 0`. -/
def Observation.get_standard_deviation (o : Observation) : TimeMs :=
  ((Nat.sqrt o.dispersion.toNat / (o.count_tasks - 1) : Nat) : Int)

/-- `Observation::get_concurrency_profit`. -/
def Observation.get_concurrency_profit (o : Observation) : ℚ :=
  o.concurrency_profit

/-- `Observation::calc_concurrency_profit` — sets
`concurrency_profit = 1.0 - total_duration as f64 / serial_duration as f64`
with `serial_duration = count_tasks * task_duration_min` (in `i128`).
State-passing model: returns the updated observation.  `f64` division by
zero yields `NaN`/`±∞` (never `0`); the `ℚ` convention `x / 0 = 0` likewise
never makes the subtraction collapse to `0` there. -/
def Observation.calc_concurrency_profit (o : Observation) (task_duration_min : TimeMs) :
    Observation :=
  { o with concurrency_profit :=
      1 - (o.get_total_duration : ℚ) /
        (((o.count_tasks : TimeCompatibleInt) * task_duration_min : Int) : ℚ) }

/-- `Observation::with_capacity` — empty task vector, profit `0.0`.
The capacity only preallocates and has no observable effect. -/
def Observation.with_capacity (capacity : Nat) : Observation :=
  { tasks := [], concurrency_profit := 0 }

/-- `struct Report { observations: Vec<Observation> }`. -/
structure Report where
  observations : List Observation
deriving DecidableEq

/-- `Report::count_observations`. -/
def Report.count_observations (r : Report) : Nat := r.observations.length

/-- `Report::get_task_duration_min` — `self.observations[0].get_total_duration()`.
Indexing panics on an empty report; the caller guards with
`count_observations() > 0`, so the `getD 0` default is unreachable junk. -/
def Report.get_task_duration_min (r : Report) : TimeMs :=
  (r.observations.head?.map Observation.get_total_duration).getD 0

/-- `Report::register_observation` — computes the profit against
`get_task_duration_min()` when the report is non-empty, rebases the
observation's schedule, then pushes it. -/
def Report.register_observation (r : Report) (obs : Observation) : Report :=
  { r with observations := r.observations ++
      [(if r.count_observations > 0 then
          obs.calc_concurrency_profit r.get_task_duration_min
        else obs).recalc_tasks_relative_earliest_start] }

/-- `Report::create` — empty observation vector (capacity has no effect). -/
def Report.create (ntasks_max : Nat) : Report :=
  { observations := [] }

/-- `count_series(n_tasks, series_size)` — `n_tasks / series_size`, plus one
when the product falls short.  Rust `usize` division panics for
`series_size = 0`; callers validate `series_size ≥ 1` (`Args::is_valid`),
and theorems carry that hypothesis. -/
def count_series (n_tasks series_size : Nat) : Nat :=
  if series_size * (n_tasks / series_size) < n_tasks then
    n_tasks / series_size + 1
  else
    n_tasks / series_size

/-- The inner spawn loop of one `crossbeam::scope` in `observe`:
`while count_tasks_total < n_tasks && count_tasks_series < series_size`
push one handle and bump both counters.  Returns the new
`count_tasks_total`. -/
def spawn_series (n_tasks series_size total count_tasks_series : Nat) : Nat :=
  if h : total < n_tasks ∧ count_tasks_series < series_size then
    spawn_series n_tasks series_size (total + 1) (count_tasks_series + 1)
  else
    total
termination_by n_tasks - total
decreasing_by omega

/-- Number of handles pushed by `observe`'s series loop:
`for _ in 0..n_series` run one spawn scope, threading `count_tasks_total`. -/
def observe_spawned (n_tasks series_size : Nat) : Nat :=
  (List.range (count_series n_tasks series_size)).foldl
    (fun count_tasks_total _ => spawn_series n_tasks series_size count_tasks_total 0) 0

/-- The sizes of the successive series spawned by `observe`, read off the
same loop: element `s` is how many tasks series `s` launches.
`k` counts the remaining series, `total` is `count_tasks_total`. -/
def observe_series_sizes_go (n_tasks series_size : Nat) : Nat → Nat → List Nat
  | 0, _ => []
  | k + 1, total =>
    (spawn_series n_tasks series_size total 0 - total) ::
      observe_series_sizes_go n_tasks series_size k (spawn_series n_tasks series_size total 0)

/-- Per-series task counts of `observe n_tasks _ series_size`. -/
def observe_series_sizes (n_tasks series_size : Nat) : List Nat :=
  observe_series_sizes_go n_tasks series_size (count_series n_tasks series_size) 0

/-- `observe(n_tasks, n_cycles, series_size)` — spawns the series, joins the
handles in push order, and registers each resulting `Task` into a fresh
`Observation`.  `env i` is the timing record returned by the `i`-th spawned
`standard_task(n_cycles)` call. -/
def observe (n_tasks n_cycles series_size : Nat) (env : Nat → Task) : Observation :=
  ((List.range (observe_spawned n_tasks series_size)).map env).foldl
    Observation.register_task (Observation.with_capacity n_tasks)

/-- `enum Command`. -/
inductive Command
  | Help
  | RequestSysParams
  | MeasureConcurrencyProfit
deriving DecidableEq

/-- `validate_usize` — the regex `^\d+$`: non-empty string of ASCII digits. -/
def validate_usize (s : String) : Bool :=
  !s.isEmpty && s.data.all Char.isDigit

/-- Decimal value of a digit string, as computed by `str::parse::<usize>`.
(The Rust parse would panic on a digit string exceeding 64-bit `usize`;
that overflow is not modelled — the claims here use short arguments.) -/
def digits_to_nat (s : String) : Nat :=
  s.data.foldl (fun n c => 10 * n + (c.toNat - 48)) 0

/-- `parse_usize` — the numeric value for digit strings, `0` otherwise. -/
def parse_usize (s : String) : Nat :=
  if validate_usize s then digits_to_nat s else 0

/-- `type ArgsVec = Vec<String>` — `args[0]` is the program name. -/
abbrev ArgsVec := List String

def ARG_IDX_COMMAND : Nat := 1

def ARG_IDX_TASKS_MAX : Nat := 2

def ARG_IDX_N_CYCLES : Nat := 3

def ARG_IDX_SERIES_SIZE : Nat := 4

def ARG_IDX_OUT_FILE_PATH : Nat := 5

/-- `struct Args`. -/
structure Args where
  command : Command
  tasks_max : Nat
  n_cycles : Nat
  series_size : Nat
  out_file_path : String
deriving DecidableEq

/-- `Args::parse_command` — reads `args[1]` only when `args.len() > 1`,
so the index is in bounds (`getD ""` is unreachable junk). -/
def Args.parse_command (a : Args) (args : ArgsVec) : Command :=
  if args.length > 1 then
    match (args.get? ARG_IDX_COMMAND).getD "" with
    | "s" => Command.RequestSysParams
    | "p" => Command.MeasureConcurrencyProfit
    | _ => Command.Help
  else Command.Help

/-- `Args::parse_tasks_max` — `parse_usize(&args[2])`; `none` models the
index-out-of-bounds panic when the argument is absent. -/
def Args.parse_tasks_max (a : Args) (args : ArgsVec) : Option Nat :=
  (args.get? ARG_IDX_TASKS_MAX).map parse_usize

/-- `Args::parse_n_cycles` — `parse_usize(&args[3])` (same panic model). -/
def Args.parse_n_cycles (a : Args) (args : ArgsVec) : Option Nat :=
  (args.get? ARG_IDX_N_CYCLES).map parse_usize

/-- `Args::parse_series_size` — `parse_usize(&args[4])` (same panic model). -/
def Args.parse_series_size (a : Args) (args : ArgsVec) : Option Nat :=
  (args.get? ARG_IDX_SERIES_SIZE).map parse_usize

/-- `Args::parse_out_file_path` — `args[5]` exactly when six arguments are
present, otherwise the empty string. -/
def Args.parse_out_file_path (a : Args) (args : ArgsVec) : String :=
  if args.length = ARG_IDX_OUT_FILE_PATH + 1 then
    (args.get? ARG_IDX_OUT_FILE_PATH).getD ""
  else ""

/-- `Args::parse` — sets the command when at least the program name is
present, parses the three numeric arguments when `args.len() >= 4`, and
the output path.  `none` models a panic while parsing (the source indexes
`args[4]` whenever `args.len() >= 4`, which is out of bounds for a vector
of exactly four arguments). -/
def Args.parse (a : Args) (args : ArgsVec) : Option Args :=
  if args.length ≥ 1 then
    if args.length ≥ 4 then
      match a.parse_tasks_max args, a.parse_n_cycles args, a.parse_series_size args with
      | some t, some c, some s =>
        some { command := a.parse_command args, tasks_max := t, n_cycles := c,
               series_size := s, out_file_path := a.parse_out_file_path args }
      | _, _, _ => none
    else
      some { a with command := a.parse_command args,
                    out_file_path := a.parse_out_file_path args }
  else some a

/-- `Args::is_valid` — all three numbers positive and
`series_size <= tasks_max`. -/
def Args.is_valid (a : Args) : Bool :=
  decide (0 < a.tasks_max) && decide (0 < a.n_cycles) &&
    decide (0 < a.series_size) && decide (a.series_size ≤ a.tasks_max)

/-- `accept_args` — parses from the all-defaults `Args`. -/
def accept_args (args : ArgsVec) : Option Args :=
  Args.parse
    { command := Command.Help, tasks_max := 0, n_cycles := 0, series_size := 0,
      out_file_path := "" } args

/-- The action `main` dispatches to (printing and file output abstracted). -/
inductive MainAction
  | help
  | sysparams
  | runProfit (tasks_max n_cycles series_size : Nat) (out_file_path : String)
deriving DecidableEq

/-- The dispatch in `main`: help, system parameters, or — for the `p`
command — the profit sweep when the arguments validate, else help.
`none` models a panic before the dispatch is reached. -/
def main_action (args : ArgsVec) : Option MainAction :=
  match accept_args args with
  | none => none
  | some a =>
    match a.command with
    | Command.Help => some MainAction.help
    | Command.RequestSysParams => some MainAction.sysparams
    | Command.MeasureConcurrencyProfit =>
      if a.is_valid then
        some (MainAction.runProfit a.tasks_max a.n_cycles a.series_size a.out_file_path)
      else
        some MainAction.help

/-- A one-task observation whose sole task has start `0` and duration `0`,
so its total duration is `0`.  Used to refute the profit boundary sub-claim
at `baselineDuration = 0`. -/
def obsC3 : Observation :=
  { tasks := [Task.create 0 0], concurrency_profit := 0 }

/-- A two-task observation with total duration `55` ms (starts `0` and `5`,
durations `50`): the spec's concrete profit scenario. -/
def obs55 : Observation :=
  { tasks := [Task.create 0 50, Task.create 5 50], concurrency_profit := 0 }

/-- A two-task observation with total duration `100` ms, hitting the profit
boundary `totalDuration = taskCount × baselineDuration` for baseline `50`. -/
def obs100 : Observation :=
  { tasks := [Task.create 0 100, Task.create 0 100], concurrency_profit := 0 }

/-- The spec's description of the Burst Scheduler partition, written from
its words: `ceil(taskCount / seriesSize)` series, series `k` holding
`min(seriesSize, remaining)` tasks where `remaining = taskCount - k *
seriesSize`.  Compared against `observe_series_sizes`, which is read off
the source's spawn loop. -/
def spec_series_sizes (n_tasks series_size : Nat) : List Nat :=
  (List.range ((n_tasks + series_size - 1) / series_size)).map
    (fun k => min series_size (n_tasks - k * series_size))

lemma spawn_series_eq (n s : Nat) :
    ∀ fuel total cnt, n - total ≤ fuel →
      spawn_series n s total cnt = total + min (s - cnt) (n - total) := by
  intro fuel
  induction fuel with
  | zero =>
    intro total cnt h
    unfold spawn_series
    rw [dif_neg (by omega)]
    omega
  | succ f ih =>
    intro total cnt h
    unfold spawn_series
    by_cases hc : total < n ∧ cnt < s
    · rw [dif_pos hc, ih (total + 1) (cnt + 1) (by omega)]
      omega
    · rw [dif_neg hc]
      omega

lemma spawn_series_closed (n s total cnt : Nat) :
    spawn_series n s total cnt = total + min (s - cnt) (n - total) :=
  spawn_series_eq n s (n - total) total cnt le_rfl

lemma foldl_spawn_series (n s : Nat) :
    ∀ k, (List.range k).foldl (fun count_tasks_total _ =>
        spawn_series n s count_tasks_total 0) 0 = min (k * s) n := by
  intro k
  induction k with
  | zero => simp
  | succ k ih =>
    rw [List.range_succ, List.foldl_append, ih]
    show spawn_series n s (min (k * s) n) 0 = _
    rw [spawn_series_closed, Nat.succ_mul]
    generalize k * s = a
    omega

lemma observe_spawned_eq (n s : Nat) :
    observe_spawned n s = min (count_series n s * s) n :=
  foldl_spawn_series n s (count_series n s)

lemma count_series_mul_ge (n s : Nat) (hs : 1 ≤ s) : n ≤ count_series n s * s := by
  unfold count_series
  have h := Nat.div_add_mod n s
  have hlt : n % s < s := Nat.mod_lt n hs
  by_cases hc : s * (n / s) < n
  · rw [if_pos hc]
    have e : (n / s + 1) * s = s * (n / s) + s := by ring
    omega
  · rw [if_neg hc]
    have e : (n / s) * s = s * (n / s) := by ring
    omega

lemma count_series_eq_ceil (n s : Nat) (hs : 1 ≤ s) :
    count_series n s = (n + s - 1) / s := by
  unfold count_series
  have h := Nat.div_add_mod n s
  have hlt : n % s < s := Nat.mod_lt n hs
  by_cases hc : s * (n / s) < n
  · rw [if_pos hc]
    have e1 : n + s - 1 = s * (n / s + 1) + (n % s - 1) := by
      have e0 : s * (n / s + 1) = s * (n / s) + s := by ring
      omega
    rw [e1, Nat.mul_add_div hs]
    have e2 : (n % s - 1) / s = 0 := Nat.div_eq_of_lt (by omega)
    omega
  · rw [if_neg hc]
    have e1 : n + s - 1 = s * (n / s) + (s - 1) := by omega
    rw [e1, Nat.mul_add_div hs]
    have e2 : (s - 1) / s = 0 := Nat.div_eq_of_lt (by omega)
    omega

lemma register_task_foldl (l : List Task) :
    ∀ o : Observation, (l.foldl Observation.register_task o).tasks = o.tasks ++ l := by
  induction l with
  | nil => intro o; simp
  | cons x xs ih =>
    intro o
    show (xs.foldl Observation.register_task (o.register_task x)).tasks = o.tasks ++ x :: xs
    rw [ih]
    show (o.tasks ++ [x]) ++ xs = o.tasks ++ x :: xs
    simp

lemma observe_series_sizes_go_eq (n s : Nat) :
    ∀ k j, observe_series_sizes_go n s k (min (j * s) n) =
      (List.range k).map (fun i => min s (n - (j + i) * s)) := by
  intro k
  induction k with
  | zero => intro j; rfl
  | succ k ih =>
    intro j
    rw [observe_series_sizes_go, spawn_series_closed]
    have e0 : (j + 1) * s = j * s + s := by ring
    have h_head : min (j * s) n + min (s - 0) (n - min (j * s) n) - min (j * s) n =
        min s (n - j * s) := by omega
    have h_tot : min (j * s) n + min (s - 0) (n - min (j * s) n) = min ((j + 1) * s) n := by
      omega
    rw [h_head, h_tot, ih (j + 1), List.range_succ_eq_map, List.map_cons, List.map_map]
    refine congrArg₂ List.cons ?_ ?_
    · rw [Nat.add_zero]
    · refine congrFun (congrArg List.map (funext fun i => ?_)) (List.range k)
      exact congrArg (fun m => min s (n - m * s)) (by omega : j + 1 + i = j + (i + 1))

lemma observe_series_sizes_eq (n s : Nat) :
    observe_series_sizes n s =
      (List.range (count_series n s)).map (fun i => min s (n - i * s)) := by
  unfold observe_series_sizes
  have h0 : (0 : Nat) = min (0 * s) n := by simp
  rw [h0, observe_series_sizes_go_eq n s (count_series n s) 0]
  refine congrFun (congrArg List.map (funext fun i => ?_)) (List.range (count_series n s))
  rw [Nat.zero_add]

lemma Task.recalc_get_duration (t : Task) (m : TimeMs) :
    (t.recalc_start_relative m).get_duration = t.get_duration := rfl

lemma Task.recalc_get_start (t : Task) (m : TimeMs) :
    (t.recalc_start_relative m).get_start = t.get_start - m := rfl

lemma Task.recalc_get_finish (t : Task) (m : TimeMs) :
    (t.recalc_start_relative m).get_finish = t.get_finish - m := by
  show t.start - m + t.duration = t.start + t.duration - m
  exact sub_add_eq_add_sub t.start m t.duration

lemma foldl_min_sub (l : List Int) :
    ∀ a m : Int, (l.map (fun v => v - m)).foldl min (a - m) = l.foldl min a - m := by
  induction l with
  | nil => intro a m; rfl
  | cons x xs ih =>
    intro a m
    show (xs.map (fun v => v - m)).foldl min (min (a - m) (x - m)) = xs.foldl min (min a x) - m
    rw [min_sub_sub_right]
    exact ih (min a x) m

lemma foldl_max_sub (l : List Int) :
    ∀ a m : Int, (l.map (fun v => v - m)).foldl max (a - m) = l.foldl max a - m := by
  induction l with
  | nil => intro a m; rfl
  | cons x xs ih =>
    intro a m
    show (xs.map (fun v => v - m)).foldl max (max (a - m) (x - m)) = xs.foldl max (max a x) - m
    rw [max_sub_sub_right]
    exact ih (max a x) m

lemma min?_map_sub (l : List Int) (m : Int) :
    (l.map (fun v => v - m)).min? = l.min?.map (fun v => v - m) := by
  cases l with
  | nil => rfl
  | cons x xs =>
    show some ((xs.map (fun v => v - m)).foldl min (x - m)) = some (xs.foldl min x - m)
    exact congrArg some (foldl_min_sub xs x m)

lemma max?_map_sub (l : List Int) (m : Int) :
    (l.map (fun v => v - m)).max? = l.max?.map (fun v => v - m) := by
  cases l with
  | nil => rfl
  | cons x xs =>
    show some ((xs.map (fun v => v - m)).foldl max (x - m)) = some (xs.foldl max x - m)
    exact congrArg some (foldl_max_sub xs x m)

lemma Observation.rebase_map_start (o : Observation) :
    o.recalc_tasks_relative_earliest_start.tasks.map Task.get_start =
      (o.tasks.map Task.get_start).map (fun v => v - o.get_earliest_start) := by
  show (o.tasks.map fun t => t.recalc_start_relative o.get_earliest_start).map Task.get_start = _
  rw [List.map_map, List.map_map]
  exact congrFun (congrArg List.map (funext fun t => rfl)) o.tasks

lemma Observation.rebase_map_finish (o : Observation) :
    o.recalc_tasks_relative_earliest_start.tasks.map Task.get_finish =
      (o.tasks.map Task.get_finish).map (fun v => v - o.get_earliest_start) := by
  show (o.tasks.map fun t => t.recalc_start_relative o.get_earliest_start).map Task.get_finish = _
  rw [List.map_map, List.map_map]
  exact congrFun
    (congrArg List.map (funext fun t => Task.recalc_get_finish t o.get_earliest_start)) o.tasks

lemma Observation.rebase_map_duration (o : Observation) :
    o.recalc_tasks_relative_earliest_start.tasks.map Task.get_duration =
      o.tasks.map Task.get_duration := by
  show (o.tasks.map fun t => t.recalc_start_relative o.get_earliest_start).map Task.get_duration = _
  rw [List.map_map]
  exact congrFun (congrArg List.map (funext fun t => rfl)) o.tasks

lemma Observation.rebase_min?_start (o : Observation) (h : o.tasks ≠ []) :
    (o.recalc_tasks_relative_earliest_start.tasks.map Task.get_start).min? = some 0 := by
  rw [Observation.rebase_map_start, min?_map_sub]
  obtain ⟨x, xs, hx⟩ := List.exists_cons_of_ne_nil h
  unfold Observation.get_earliest_start
  rw [hx, List.map_cons]
  rw [show (Task.get_start x :: xs.map Task.get_start).min? =
        some ((xs.map Task.get_start).foldl min (Task.get_start x)) from rfl]
  simp

lemma Observation.rebase_max?_finish (o : Observation) (h : o.tasks ≠ []) :
    (o.recalc_tasks_relative_earliest_start.tasks.map Task.get_finish).max? =
      some (o.get_latest_finish - o.get_earliest_start) := by
  rw [Observation.rebase_map_finish, max?_map_sub]
  obtain ⟨x, xs, hx⟩ := List.exists_cons_of_ne_nil h
  unfold Observation.get_latest_finish
  rw [hx, List.map_cons]
  rw [show (Task.get_finish x :: xs.map Task.get_finish).max? =
        some ((xs.map Task.get_finish).foldl max (Task.get_finish x)) from rfl]
  simp

lemma Observation.rebase_earliest (o : Observation) (h : o.tasks ≠ []) :
    o.recalc_tasks_relative_earliest_start.get_earliest_start = 0 := by
  unfold Observation.get_earliest_start
  rw [Observation.rebase_min?_start o h]
  rfl

lemma Observation.rebase_latest (o : Observation) (h : o.tasks ≠ []) :
    o.recalc_tasks_relative_earliest_start.get_latest_finish =
      o.get_latest_finish - o.get_earliest_start := by
  unfold Observation.get_latest_finish
  rw [Observation.rebase_max?_finish o h]
  rfl

lemma Observation.rebase_total (o : Observation) :
    o.recalc_tasks_relative_earliest_start.get_total_duration = o.get_total_duration := by
  by_cases h : o.tasks = []
  · unfold Observation.get_total_duration Observation.get_latest_finish
      Observation.get_earliest_start Observation.recalc_tasks_relative_earliest_start
    rw [h]
    rfl
  · unfold Observation.get_total_duration
    rw [Observation.rebase_latest o h, Observation.rebase_earliest o h, sub_zero]

lemma Observation.rebase_count (o : Observation) :
    o.recalc_tasks_relative_earliest_start.count_tasks = o.count_tasks := by
  unfold Observation.count_tasks Observation.recalc_tasks_relative_earliest_start
  exact List.length_map o.tasks _

lemma Observation.rebase_sum_duration (o : Observation) :
    o.recalc_tasks_relative_earliest_start.sum_duration = o.sum_duration := by
  unfold Observation.sum_duration
  rw [Observation.rebase_map_duration]

lemma Observation.rebase_mean (o : Observation) :
    o.recalc_tasks_relative_earliest_start.get_mean_task_duration =
      o.get_mean_task_duration := by
  unfold Observation.get_mean_task_duration
  rw [Observation.rebase_sum_duration, Observation.rebase_count]

lemma Observation.rebase_dispersion (o : Observation) :
    o.recalc_tasks_relative_earliest_start.dispersion = o.dispersion := by
  unfold Observation.dispersion
  rw [Observation.rebase_mean]
  show ((o.tasks.map fun t => t.recalc_start_relative o.get_earliest_start).map _).sum = _
  rw [List.map_map]
  exact congrArg List.sum (congrFun (congrArg List.map (funext fun t => rfl)) o.tasks)

lemma Observation.rebase_standard_deviation (o : Observation) :
    o.recalc_tasks_relative_earliest_start.get_standard_deviation =
      o.get_standard_deviation := by
  unfold Observation.get_standard_deviation
  rw [Observation.rebase_dispersion, Observation.rebase_count]

lemma Observation.calc_profit_tasks (o : Observation) (b : TimeMs) :
    (o.calc_concurrency_profit b).tasks = o.tasks := rfl

lemma Observation.rebase_profit (o : Observation) :
    o.recalc_tasks_relative_earliest_start.concurrency_profit = o.concurrency_profit := rfl

/-- C10: the aggregate statistics `totalDuration`, `meanTaskDuration` and
`standardDeviation` of an `Observation` are invariant under the rebasing
mutation `recalc_tasks_relative_earliest_start`: computing them after
rebasing (as the printing and formatting code does, lazily) yields exactly
the values of the original absolute timestamps. -/
theorem C10_stats_rebase_invariant (o : Observation) :
    o.recalc_tasks_relative_earliest_start.get_total_duration = o.get_total_duration ∧
    o.recalc_tasks_relative_earliest_start.get_mean_task_duration =
      o.get_mean_task_duration ∧
    o.recalc_tasks_relative_earliest_start.get_standard_deviation =
      o.get_standard_deviation :=
  ⟨Observation.rebase_total o, Observation.rebase_mean o,
    Observation.rebase_standard_deviation o⟩

/-- C7: after `Report::register_observation` has processed an observation
with a non-empty schedule, the minimum `startedAt` across the entries of
the stored (rebased) schedule is exactly `0`: the one rebasing step
subtracted the schedule's earliest start from every entry. -/
theorem C7_rebased_min_start_zero (r : Report) (o : Observation) (h : o.tasks ≠ []) :
    ((r.register_observation o).observations.getLast?).map
      (fun obs => (obs.tasks.map Task.get_start).min?) = some (some 0) := by
  unfold Report.register_observation
  rw [List.getLast?_append, List.getLast?_singleton]
  show some _ = some (some 0)
  refine congrArg some ?_
  by_cases hc : r.count_observations > 0
  · rw [if_pos hc]
    exact Observation.rebase_min?_start (o.calc_concurrency_profit r.get_task_duration_min) h
  · rw [if_neg hc]
    exact Observation.rebase_min?_start o h

/-- C7 witness: registering a concrete two-task observation (starts 5 and 3)
into an empty report leaves a schedule whose minimum start is `0`. -/
theorem C7_rebased_min_start_zero_witness :
    ((Task.create 5 2).start = 5 ∧
        ([Task.create 5 2, Task.create 3 4] : List Task) ≠ []) ∧
    (((Report.create 0).register_observation
        (Observation.mk [Task.create 5 2, Task.create 3 4] 0)).observations.getLast?).map
      (fun obs => (obs.tasks.map Task.get_start).min?) = some (some 0) :=
  ⟨⟨rfl, by decide⟩,
    C7_rebased_min_start_zero (Report.create 0)
      (Observation.mk [Task.create 5 2, Task.create 3 4] 0) (by decide)⟩

/-- C9: every `ScheduleEntry` produced by the Task Runner (`standard_task`)
has non-negative duration — its clock reads are `Duration::as_millis()`
values — and hence `finishedAt = startedAt + duration ≥ startedAt`; and the
reducer's rebasing preserves both properties for every entry of any
schedule of non-negative durations. -/
theorem C9_duration_nonneg :
    (∀ n_cycles nowMs elapsedMs : Nat,
        0 ≤ (standard_task n_cycles nowMs elapsedMs).get_duration ∧
        (standard_task n_cycles nowMs elapsedMs).get_start ≤
          (standard_task n_cycles nowMs elapsedMs).get_finish) ∧
    (∀ o : Observation, (∀ t ∈ o.tasks, 0 ≤ t.get_duration) →
        ∀ t ∈ o.recalc_tasks_relative_earliest_start.tasks,
          0 ≤ t.get_duration ∧ t.get_start ≤ t.get_finish) := by
  constructor
  · intro n_cycles nowMs elapsedMs
    refine ⟨Int.natCast_nonneg elapsedMs, ?_⟩
    show (nowMs : Int) ≤ (nowMs : Int) + (elapsedMs : Int)
    exact le_add_of_nonneg_right (Int.natCast_nonneg elapsedMs)
  · intro o hdur t ht
    unfold Observation.recalc_tasks_relative_earliest_start at ht
    obtain ⟨t', ht', rfl⟩ := List.mem_map.1 ht
    refine ⟨hdur t' ht', ?_⟩
    show t'.start - o.get_earliest_start ≤ t'.start - o.get_earliest_start + t'.duration
    exact le_add_of_nonneg_right (hdur t' ht')

/-- C9 witness: the concrete task runner record with clock reads 3 and 7,
and a concrete rebased entry. -/
theorem C9_duration_nonneg_witness :
    (0 ≤ (standard_task 5 3 7).get_duration ∧
      (standard_task 5 3 7).get_start ≤ (standard_task 5 3 7).get_finish) ∧
    (0 ≤ (Task.create 0 7).get_duration ∧
      (Task.create 0 7).get_start ≤ (Task.create 0 7).get_finish) :=
  ⟨C9_duration_nonneg.1 5 3 7,
    C9_duration_nonneg.2 (Observation.mk [Task.create 3 7] 0) (by decide)
      (Task.create 0 7) (by decide)⟩

/-- C5: for a schedule with exactly one entry the reducer yields
`standardDeviation = 0` and `meanTaskDuration` equal to the sole entry's
duration; the standard-deviation computation involves no division fault
(the source's `0.0 / 0.0` is `NaN`, whose `as i128` cast is `0`, the value
the embedding's total division by zero also gives). -/
theorem C5_single_task_reducer (t : Task) (p : ℚ) :
    (Observation.mk [t] p).get_standard_deviation = 0 ∧
    (Observation.mk [t] p).get_mean_task_duration = t.get_duration := by
  have hmean : (Observation.mk [t] p).get_mean_task_duration = t.get_duration := by
    unfold Observation.get_mean_task_duration Observation.sum_duration Observation.count_tasks
    simp [Int.tdiv_one, Task.get_duration]
  refine ⟨?_, hmean⟩
  unfold Observation.get_standard_deviation Observation.dispersion
  rw [hmean]
  simp [Observation.count_tasks]

/-- C3 counterexample: the boundary sub-claim fails at
`baselineDuration = 0`.  `obsC3` has `taskCount = 1 ≥ 1` and
`totalDuration = 0 = taskCount × 0`, yet the computed profit is not `0`
(the source computes `1.0 - 0.0/0.0 = NaN`; in the exact model the profit
is `1`). -/
theorem C3_boundary_counterexample :
    1 ≤ obsC3.count_tasks ∧
    obsC3.get_total_duration = (obsC3.count_tasks : Int) * 0 ∧
    (obsC3.calc_concurrency_profit 0).get_concurrency_profit ≠ 0 := by
  refine ⟨by decide, by decide, ?_⟩
  have h : obsC3.get_total_duration = 0 := by decide
  unfold Observation.calc_concurrency_profit Observation.get_concurrency_profit
  rw [h]
  norm_num

/-- C3 (amended): for every observation with `taskCount ≥ 1` and every
baseline, the Profit Calculator sets
`concurrencyProfit = 1 − totalDuration / (taskCount × baselineDuration)`;
with the 2-task, 55 ms observation against baseline 50 ms the profit is
`1 − 55/100 = 0.45`; and whenever `totalDuration = taskCount ×
baselineDuration` exactly with a nonzero `baselineDuration`, the profit
is `0`. -/
theorem C3_profit_formula :
    (∀ (o : Observation) (b : TimeMs), 1 ≤ o.count_tasks →
        (o.calc_concurrency_profit b).get_concurrency_profit =
          1 - (o.get_total_duration : ℚ) / ((o.count_tasks : ℚ) * (b : ℚ))) ∧
    (obs55.calc_concurrency_profit 50).get_concurrency_profit = 0.45 ∧
    (∀ (o : Observation) (b : TimeMs), 1 ≤ o.count_tasks → b ≠ 0 →
        o.get_total_duration = (o.count_tasks : Int) * b →
        (o.calc_concurrency_profit b).get_concurrency_profit = 0) := by
  refine ⟨?_, ?_, ?_⟩
  · intro o b hc
    unfold Observation.calc_concurrency_profit Observation.get_concurrency_profit
    push_cast
    rfl
  · have h : obs55.get_total_duration = 55 := by decide
    have hc : obs55.count_tasks = 2 := by decide
    unfold Observation.calc_concurrency_profit Observation.get_concurrency_profit
    rw [h, hc]
    norm_num
  · intro o b hc hb heq
    unfold Observation.calc_concurrency_profit Observation.get_concurrency_profit
    rw [heq]
    have hne : (((o.count_tasks : Int) * b : Int) : ℚ) ≠ 0 := by
      rw [Int.cast_ne_zero]
      exact mul_ne_zero (Int.natCast_ne_zero.mpr (by omega)) hb
    rw [div_self hne, sub_self]

/-- C3 witness: the amended boundary at a concrete observation —
2 tasks, total duration 100 ms, baseline 50 ms — yields profit `0`. -/
theorem C3_profit_formula_witness :
    (50 : TimeMs) ≠ 0 ∧
    (obs100.calc_concurrency_profit 50).get_concurrency_profit = 0 :=
  ⟨by decide,
    C3_profit_formula.2.2 obs100 50 (by decide) (by decide) (by decide)⟩

/-- C1: for every `taskCount ≥ 1` and `1 ≤ seriesSize ≤ taskCount`,
`observe` returns an observation whose schedule holds exactly `taskCount`
entries — the records of spawned tasks `0, …, taskCount - 1` in join
order, none lost or duplicated. -/
theorem C1_schedule_size (n_tasks n_cycles series_size : Nat) (env : Nat → Task)
    (h1 : 1 ≤ n_tasks) (h2 : 1 ≤ series_size) (h3 : series_size ≤ n_tasks) :
    (observe n_tasks n_cycles series_size env).count_tasks = n_tasks ∧
    (observe n_tasks n_cycles series_size env).tasks = (List.range n_tasks).map env := by
  have hspawn : observe_spawned n_tasks series_size = n_tasks := by
    rw [observe_spawned_eq]
    have h := count_series_mul_ge n_tasks series_size h2
    omega
  have htasks : (observe n_tasks n_cycles series_size env).tasks =
      (List.range n_tasks).map env := by
    unfold observe
    rw [hspawn, register_task_foldl]
    show [] ++ (List.range n_tasks).map env = _
    rw [List.nil_append]
  refine ⟨?_, htasks⟩
  rw [Observation.count_tasks, htasks]
  simp

/-- C1 witness: observing 3 tasks with series size 2 yields exactly the
3 spawned records. -/
theorem C1_schedule_size_witness :
    (1 ≤ 3 ∧ 1 ≤ 2 ∧ 2 ≤ 3) ∧
    (observe 3 9 2 (fun i => Task.create i 1)).count_tasks = 3 ∧
    (observe 3 9 2 (fun i => Task.create i 1)).tasks =
      (List.range 3).map (fun i => Task.create i 1) :=
  ⟨⟨by decide, by decide, by decide⟩,
    C1_schedule_size 3 9 2 (fun i => Task.create i 1) (by decide) (by decide) (by decide)⟩

/-- C2: for `taskCount ≥ 1` and `seriesSize ≥ 1` the Burst Scheduler
partitions the tasks into exactly `ceil(taskCount / seriesSize)` sequential
series, series `k` holding `min(seriesSize, remaining)` tasks — the spawn
loop's per-series counts equal the spec-side `spec_series_sizes` — and for
`seriesSize = 4, taskCount = 10` the series sizes are `4, 4, 2`. -/
theorem C2_series_partition (n_tasks series_size : Nat)
    (h1 : 1 ≤ n_tasks) (h2 : 1 ≤ series_size) :
    observe_series_sizes n_tasks series_size = spec_series_sizes n_tasks series_size ∧
    (observe_series_sizes n_tasks series_size).length =
      (n_tasks + series_size - 1) / series_size ∧
    observe_series_sizes 10 4 = [4, 4, 2] := by
  have hmain : observe_series_sizes n_tasks series_size =
      spec_series_sizes n_tasks series_size := by
    rw [observe_series_sizes_eq, spec_series_sizes,
      count_series_eq_ceil n_tasks series_size h2]
  refine ⟨hmain, ?_, by rw [observe_series_sizes_eq]; decide⟩
  rw [hmain]
  unfold spec_series_sizes
  simp

/-- C2 witness: the concrete scenario `taskCount = 10`, `seriesSize = 4`. -/
theorem C2_series_partition_witness :
    (1 ≤ 10 ∧ 1 ≤ 4) ∧
    observe_series_sizes 10 4 = spec_series_sizes 10 4 ∧
    (observe_series_sizes 10 4).length = (10 + 4 - 1) / 4 ∧
    observe_series_sizes 10 4 = [4, 4, 2] :=
  ⟨⟨by decide, by decide⟩, C2_series_partition 10 4 (by decide) (by decide)⟩

lemma register_observation_nonempty_head (x : Observation) (rest : List Observation)
    (o : Observation) :
    Report.register_observation ⟨x :: rest⟩ o =
      ⟨x :: (rest ++ [(o.calc_concurrency_profit
        x.get_total_duration).recalc_tasks_relative_earliest_start])⟩ := by
  unfold Report.register_observation Report.count_observations Report.get_task_duration_min
  simp

lemma foldl_register_cons :
    ∀ (obss : List Observation) (x : Observation) (rest : List Observation),
      (obss.foldl Report.register_observation ⟨x :: rest⟩).observations =
        x :: (rest ++ obss.map (fun o => (o.calc_concurrency_profit
          x.get_total_duration).recalc_tasks_relative_earliest_start)) := by
  intro obss
  induction obss with
  | nil => intro x rest; simp
  | cons o os ih =>
    intro x rest
    show (os.foldl Report.register_observation
      (Report.register_observation ⟨x :: rest⟩ o)).observations = _
    rw [register_observation_nonempty_head, ih]
    simp

lemma register_observation_empty (o : Observation) (n : Nat) :
    (Report.create n).register_observation o =
      ⟨[o.recalc_tasks_relative_earliest_start]⟩ := rfl

/-- C4: in a report built by registering observations in order (each
arriving with the neutral profit `0`, as `observe` produces them), the
first registered observation keeps `concurrencyProfit = 0` — it is the
baseline itself, and registering into the still-empty report skips the
profit computation entirely — while every subsequent observation's profit
is computed against the one fixed baseline: the total duration of the
first observation `report[0]`, never a recomputed running minimum. -/
theorem C4_fixed_baseline (o0 : Observation) (obss : List Observation)
    (h0 : o0.get_concurrency_profit = 0) :
    (((o0 :: obss).foldl Report.register_observation
        (Report.create (obss.length + 1))).observations.head?).map
      Observation.get_concurrency_profit = some 0 ∧
    ∀ i, (hi : i < obss.length) →
      ((((o0 :: obss).foldl Report.register_observation
          (Report.create (obss.length + 1))).observations.get? (i + 1)).map
        Observation.get_concurrency_profit =
          some (1 - ((obss.get ⟨i, hi⟩).get_total_duration : ℚ) /
            ((((obss.get ⟨i, hi⟩).count_tasks : ℤ) * o0.get_total_duration : ℤ) : ℚ))) := by
  have hobs : ((o0 :: obss).foldl Report.register_observation
      (Report.create (obss.length + 1))).observations =
        o0.recalc_tasks_relative_earliest_start :: obss.map (fun o =>
          (o.calc_concurrency_profit
            o0.recalc_tasks_relative_earliest_start.get_total_duration).recalc_tasks_relative_earliest_start) := by
    show ((obss.foldl Report.register_observation
      ((Report.create (obss.length + 1)).register_observation o0)).observations) = _
    rw [register_observation_empty, foldl_register_cons obss _ []]
    rfl
  constructor
  · rw [hobs]
    show some (o0.recalc_tasks_relative_earliest_start.get_concurrency_profit) = some 0
    refine congrArg some ?_
    show o0.recalc_tasks_relative_earliest_start.concurrency_profit = 0
    rw [Observation.rebase_profit]
    exact h0
  · intro i hi
    rw [hobs]
    show ((obss.map (fun o => (o.calc_concurrency_profit
      o0.recalc_tasks_relative_earliest_start.get_total_duration).recalc_tasks_relative_earliest_start)).get? i).map
        Observation.get_concurrency_profit = _
    rw [List.get?_map, List.get?_eq_get hi]
    show some ((((obss.get ⟨i, hi⟩).calc_concurrency_profit
      o0.recalc_tasks_relative_earliest_start.get_total_duration).recalc_tasks_relative_earliest_start).get_concurrency_profit) = _
    refine congrArg some ?_
    show (((obss.get ⟨i, hi⟩).calc_concurrency_profit
      o0.recalc_tasks_relative_earliest_start.get_total_duration).recalc_tasks_relative_earliest_start).concurrency_profit = _
    rw [Observation.rebase_profit, Observation.rebase_total]
    rfl

/-- C4 witness: a 1-task baseline of total duration 50 followed by a
2-task observation of total duration 55; the second entry's profit is
computed against the fixed baseline 50. -/
theorem C4_fixed_baseline_witness :
    ((((Observation.mk [Task.create 0 50] 0) ::
        [Observation.mk [Task.create 0 50, Task.create 5 50] 0]).foldl
          Report.register_observation (Report.create 2)).observations.get? 1).map
      Observation.get_concurrency_profit =
        some (1 - (((Observation.mk [Task.create 0 50, Task.create 5 50]
            0).get_total_duration : ℚ)) /
          ((((Observation.mk [Task.create 0 50, Task.create 5 50] 0).count_tasks : ℤ) *
            (Observation.mk [Task.create 0 50] 0).get_total_duration : ℤ) : ℚ)) :=
  (C4_fixed_baseline (Observation.mk [Task.create 0 50] 0)
    [Observation.mk [Task.create 0 50, Task.create 5 50] 0] rfl).2 0 (by decide)

/-- C6: for every schedule with `taskCount ≥ 2`, the standard deviation
produced by the source equals the spec formula
`sqrt(Σ (mean − duration)²) / (taskCount − 1)` truncated to an integer
(real square root, floor), with the mean being the truncating integer
division of the duration sum by the task count. -/
theorem C6_standard_deviation_formula (o : Observation) (h : 2 ≤ o.count_tasks) :
    o.get_standard_deviation =
      ⌊Real.sqrt (o.dispersion : ℝ) / ((o.count_tasks : ℝ) - 1)⌋ ∧
    o.get_mean_task_duration =
      Int.tdiv (o.tasks.map Task.get_duration).sum (o.count_tasks : Int) := by
  refine ⟨?_, rfl⟩
  have hd : 0 ≤ o.dispersion := by
    refine List.sum_nonneg ?_
    intro x hx
    obtain ⟨t, _, rfl⟩ := List.mem_map.1 hx
    exact mul_self_nonneg _
  have hdcast : (o.dispersion : ℝ) = ((o.dispersion.toNat : ℕ) : ℝ) := by
    exact_mod_cast congrArg (fun z : ℤ => (z : ℝ)) (Int.toNat_of_nonneg hd).symm
  have hkcast : (o.count_tasks : ℝ) - 1 = ((o.count_tasks - 1 : ℕ) : ℝ) := by
    rw [Nat.cast_sub (by omega), Nat.cast_one]
  rw [hdcast, hkcast]
  have hnonneg : 0 ≤ Real.sqrt ((o.dispersion.toNat : ℕ) : ℝ) /
      ((o.count_tasks - 1 : ℕ) : ℝ) :=
    div_nonneg (Real.sqrt_nonneg _) (Nat.cast_nonneg _)
  rw [← Int.natCast_floor_eq_floor hnonneg, Nat.floor_div_nat]
  have hsqrt : ⌊Real.sqrt ((o.dispersion.toNat : ℕ) : ℝ)⌋₊ = Nat.sqrt o.dispersion.toNat := by
    rw [Nat.floor_eq_iff (Real.sqrt_nonneg _)]
    exact ⟨Real.nat_sqrt_le_real_sqrt, Real.real_sqrt_lt_nat_sqrt_succ⟩
  rw [hsqrt]
  rfl

/-- C6 witness: two tasks with durations 10 and 20 (mean 15, dispersion
50); the hypothesis `taskCount ≥ 2` holds and the source value matches the
spec formula. -/
theorem C6_standard_deviation_formula_witness :
    2 ≤ (Observation.mk [Task.create 0 10, Task.create 0 20] 0).count_tasks ∧
    (Observation.mk [Task.create 0 10, Task.create 0 20] 0).get_standard_deviation =
      ⌊Real.sqrt (((Observation.mk [Task.create 0 10, Task.create 0 20]
          0).dispersion : ℝ)) /
        (((Observation.mk [Task.create 0 10, Task.create 0 20] 0).count_tasks : ℝ) - 1)⌋ :=
  ⟨by decide,
    (C6_standard_deviation_formula
      (Observation.mk [Task.create 0 10, Task.create 0 20] 0) (by decide)).1⟩

/-- C8 (code-bug evidence): selecting the profit command with the series
size missing — argv `["conctest", "p", "10", "1000"]`, exactly four
entries — makes `Args::parse` index `args[4]` out of bounds, a panic
(modelled as `none`), instead of falling back to the help message; the
other invalid shapes named by the claim (too few numbers, a non-numeric
number, a zero value, series size exceeding task count) do reach the help
message. -/
theorem C8_missing_series_size_panics :
    main_action ["conctest", "p", "10", "1000"] = none ∧
    main_action ["conctest", "p", "10"] = some MainAction.help ∧
    main_action ["conctest", "p", "x", "1000", "4"] = some MainAction.help ∧
    main_action ["conctest", "p", "0", "1000", "4"] = some MainAction.help ∧
    main_action ["conctest", "p", "10", "1000", "20"] = some MainAction.help := by
  refine ⟨rfl, rfl, rfl, rfl, rfl⟩

end Conctest
